import Mathlib

/-!
Shallow embedding of the rating-aggregation subsystem of `Website/server.js`
(cocktail-of-the-day web application).

The server keeps one SQLite table `CocktailRatings(cocktail_id, rating,
rated_date)` and one table `Moods(ID, Mood)`.  Route handlers run aggregate
SQL queries over these tables and, for recipe routes, hydrate the resolved
cocktail id against the external recipe API.  We model the tables as Lean
lists of rows, SQL aggregates as list functions, and the HTTP layer as a
result type carrying either a JSON body or a status code with the literal
message string the handler sends.
-/

/-- A calendar date as stored in the `rated_date` column (ISO `YYYY-MM-DD`
strings in the database; modelled structurally). -/
structure CalDate where
  year : Nat
  month : Nat
  day : Nat
deriving DecidableEq, Repr

/-- One row of the `CocktailRatings` table.  The `/submit-rating` handler
inserts the request body values unvalidated, so `rating` is an arbitrary
numeric value (modelled as a rational, the exact-arithmetic image of a JS
number). -/
structure RatingRow where
  cocktail_id : String
  rating : ℚ
  rated_date : CalDate
deriving DecidableEq, Repr

/-- The rating values of the rows matching a given cocktail id:
`SELECT rating FROM CocktailRatings WHERE cocktail_id = ?`. -/
def ratingsFor (store : List RatingRow) (id : String) : List ℚ :=
  (store.filter (fun r => r.cocktail_id = id)).map (fun r => r.rating)

/-- Arithmetic mean of a list of rationals (`AVG` over a nonempty group). -/
def mean (l : List ℚ) : ℚ := l.sum / l.length

/-- SQLite `AVG(rating)` over the matching rows: `NULL` (here `none`) when
there are no rows, otherwise the arithmetic mean. -/
def sqlAvg (l : List ℚ) : Option ℚ :=
  if l.isEmpty then none else some (mean l)

/-- JavaScript `Number.prototype.toFixed(2)`: the value rounded to two
decimal places (round half away from zero on exact values), modelled as the
rational the produced string denotes. -/
def toFixed2 (q : ℚ) : ℚ :=
  if 0 ≤ q then (⌊q * 100 + 1/2⌋ : ℚ) / 100 else -((⌊-q * 100 + 1/2⌋ : ℚ) / 100)

/-- The `averageRating` field of the `/average-rating/:cocktailId` JSON
response: either the sentinel string `"Not rated"` or a number formatted to
two decimal places. -/
inductive AvgField where
  | notRated
  | fixed (q : ℚ)
deriving DecidableEq, Repr

/-- The JSON body sent by `/average-rating/:cocktailId` on success. -/
structure AvgResponse where
  averageRating : AvgField
  ratingCount : Nat
deriving DecidableEq, Repr

/-- The `/average-rating/:cocktailId` handler.  It runs
`SELECT AVG(rating) as avgRating, COUNT(rated_date) as ratingCount
 FROM CocktailRatings WHERE cocktail_id = ?`
(the aggregate query always yields exactly one row, with `avgRating = NULL`
when no rows match) and responds with
`{ averageRating: row && row.avgRating ? row.avgRating.toFixed(2) : 'Not rated',
   ratingCount: row ? row.ratingCount : 0 }`.
JS truthiness makes both `null` and `0` take the `'Not rated'` branch. -/
def averageRating (store : List RatingRow) (id : String) : AvgResponse :=
  { averageRating :=
      match sqlAvg (ratingsFor store id) with
      | none => .notRated
      | some q => if q = 0 then .notRated else .fixed (toFixed2 q)
    ratingCount := (ratingsFor store id).length }

/-- The `/submit-rating` handler's successful database effect:
`INSERT INTO CocktailRatings (cocktail_id, rating, rated_date) VALUES (?, ?, ?)`
appends one row unconditionally. -/
def submitRating (store : List RatingRow) (id : String) (rating : ℚ)
    (date : CalDate) : List RatingRow :=
  store ++ [{ cocktail_id := id, rating := rating, rated_date := date }]

/-- The month filter of the `/top-rated-cocktail` query:
`strftime('%m', rated_date) = $1 AND strftime('%Y', rated_date) = $2`,
where `$1`/`$2` are the current month and year. -/
def inMonth (d : CalDate) (m y : Nat) : Bool :=
  d.month = m && d.year = y

/-- The rows the `/top-rated-cocktail` query aggregates over: those whose
`rated_date` falls in the given month of the given year. -/
def monthRows (store : List RatingRow) (m y : Nat) : List RatingRow :=
  store.filter (fun r => inMonth r.rated_date m y)

/-- The distinct cocktail ids appearing in a row set (`GROUP BY cocktail_id`
produces one group per distinct id). -/
def groupIds (rows : List RatingRow) : List String :=
  (rows.map (fun r => r.cocktail_id)).dedup

/-- The `AVG(rating)` of one `GROUP BY cocktail_id` group. -/
def groupMean (rows : List RatingRow) (id : String) : ℚ :=
  mean ((rows.filter (fun r => r.cocktail_id = id)).map (fun r => r.rating))

/-- The `ORDER BY avgRating DESC LIMIT 1` selection over the groups: an id of maximal
mean.  SQLite's order among equal means is unspecified; we model the tie as
going to the id listed first, one consistent resolution. -/
def argmaxBy (f : String → ℚ) : List String → Option String
  | [] => none
  | x :: xs => some (xs.foldl (fun b c => if f b < f c then c else b) x)

/-- The `/top-rated-cocktail` handler's id resolution: group the current
month's rating rows by cocktail id, average each group, and take the group
with the highest average (`ORDER BY avgRating DESC LIMIT 1`); `none` when no
row falls in the month (the handler then responds 404). -/
def topRatedMonth (store : List RatingRow) (m y : Nat) : Option String :=
  let rows := monthRows store m y
  argmaxBy (groupMean rows) (groupIds rows)

/-- JavaScript `Date.prototype.getDay` on a date given as days since the
Unix epoch: 0 = Sunday, …, 6 = Saturday (1970-01-01 was a Thursday). -/
def getDay (t : Int) : Int := (t + 4) % 7

/-- The `/top-rated-cocktail-week` handler's week start, on epoch days:
`now.setDate(now.getDate() - now.getDay() + (now.getDay() === 0 ? -6 : 1))`
(`setDate` normalizes out-of-range day-of-month values, so the mutation is
plain day arithmetic). -/
def firstDayOfWeek (t : Int) : Int :=
  t - getDay t + (if getDay t = 0 then -6 else 1)

/-- The handler's week end: `lastDayOfWeek.setDate(firstDayOfWeek.getDate() + 6)`. -/
def lastDayOfWeek (t : Int) : Int := firstDayOfWeek t + 6

/-- One row of the `Moods` table. -/
structure MoodEntry where
  ID : String
  Mood : String
deriving DecidableEq, Repr

/-- The rows matching `SELECT ID FROM Moods WHERE Mood = ?` (SQL `=` on the
bound string parameter is case-sensitive). -/
def moodMatches (tbl : List MoodEntry) (mood : String) : List MoodEntry :=
  tbl.filter (fun e => e.Mood = mood)

/-- The `ORDER BY RANDOM() LIMIT 1` selection over the matching rows: a uniformly random
element, modelled by an arbitrary draw index `k` reduced modulo the number
of matches; `none` when there is no match. -/
def resolveByMood (tbl : List MoodEntry) (mood : String) (k : Nat) :
    Option String :=
  let ms := moodMatches tbl mood
  (ms.get? (k % ms.length)).map (fun e => e.ID)

/-- A drink record of the external API's `drinks` array, a JSON object
modelled as its key/value pairs. -/
structure Drink where
  fields : List (String × String)
deriving DecidableEq, Repr

/-- Whether a drink record's JSON object has a field of the given name. -/
def Drink.hasField (d : Drink) (k : String) : Bool :=
  d.fields.any (fun p => p.1 = k)

/-- The parsed JSON body of the external API's lookup response: a `drinks`
field holding either `null` (modelled `none`) or an array of drink records. -/
structure Upstream where
  drinks : Option (List Drink)
deriving DecidableEq, Repr

/-- Outcome of `fetch(apiURL).then(response => response.json())`:
the network call may fail, the body may fail to parse as JSON (both land in
the `.catch` branch), or a parsed value is produced. -/
inductive FetchResult where
  | networkError
  | parseError
  | ok (data : Upstream)
deriving DecidableEq, Repr

/-- An HTTP response from a recipe route: a JSON drink body on success, or
a status code with the literal message string the handler sends. -/
inductive HttpResult where
  | ok (body : Drink)
  | err (status : Nat) (msg : String)
deriving DecidableEq, Repr

/-- The hydration step shared by `/cocktail-by-mood`, `/top-rated-cocktail`
and `/top-rated-cocktail-week`: on a fetch/parse failure the `.catch`
branch sends 500 `'Error fetching from the API'`; otherwise
`if (data.drinks && data.drinks.length > 0)` sends `data.drinks[0]`, else
404 `'Cocktail not found'`. -/
def hydrate (fr : FetchResult) : HttpResult :=
  match fr with
  | .networkError => .err 500 "Error fetching from the API"
  | .parseError => .err 500 "Error fetching from the API"
  | .ok data =>
    match data.drinks with
    | some (d :: _) => .ok d
    | some [] => .err 404 "Cocktail not found"
    | none => .err 404 "Cocktail not found"

/-- The `/cocktail-by-mood` handler: resolve an id by mood, hydrate it
against the external API (`fetchFor` gives the fetch outcome per id), or
send 404 `'No cocktails found for this mood'` when no row matches. -/
def cocktailByMood (tbl : List MoodEntry) (mood : String) (k : Nat)
    (fetchFor : String → FetchResult) : HttpResult :=
  match resolveByMood tbl mood k with
  | some id => hydrate (fetchFor id)
  | none => .err 404 "No cocktails found for this mood"

/-! ## Helper lemmas -/

/-- A nonempty list is not reported empty by `List.isEmpty`. -/
theorem sqlAvg_of_ne_nil (l : List ℚ) (h : l ≠ []) : sqlAvg l = some (mean l) := by
  simp [sqlAvg, h]

/-- If every element of a list of rationals is at least 1, the sum dominates
the length. -/
theorem length_le_sum_of_one_le (l : List ℚ) (h : ∀ q ∈ l, 1 ≤ q) :
    (l.length : ℚ) ≤ l.sum := by
  induction l with
  | nil => simp
  | cons a tl ih =>
    have ha := h a (List.mem_cons_self a tl)
    have htl := ih (fun q hq => h q (List.mem_cons_of_mem a hq))
    simp only [List.length_cons, List.sum_cons]
    push_cast
    linarith

/-- The mean of a nonempty list of rationals all at least 1 is at least 1. -/
theorem one_le_mean (l : List ℚ) (hne : l ≠ []) (h : ∀ q ∈ l, 1 ≤ q) :
    1 ≤ mean l := by
  have hlen : 0 < l.length := List.length_pos.mpr hne
  have hlenq : (0 : ℚ) < l.length := by exact_mod_cast hlen
  have hle := length_le_sum_of_one_le l h
  rw [mean, le_div_iff₀ hlenq]
  linarith

/-! ## Claims about the average-rating route -/

/-- C1: for a cocktail id with N ≥ 1 rating rows whose rating values are
integers in 1..5, `/average-rating/:cocktailId` returns the arithmetic mean
of the ratings formatted to two decimal places as `averageRating`, and
`ratingCount` equal to N. -/
theorem averageRating_mean_spec (store : List RatingRow) (id : String)
    (h1 : ratingsFor store id ≠ [])
    (h2 : ∀ q ∈ ratingsFor store id, ∃ n : ℤ, 1 ≤ n ∧ n ≤ 5 ∧ q = (n : ℚ)) :
    averageRating store id =
      ⟨.fixed (toFixed2 (mean (ratingsFor store id))),
       (ratingsFor store id).length⟩ := by
  have hone : ∀ q ∈ ratingsFor store id, (1 : ℚ) ≤ q := by
    intro q hq
    obtain ⟨n, hn1, _, rfl⟩ := h2 q hq
    exact_mod_cast hn1
  have hmean := one_le_mean (ratingsFor store id) h1 hone
  have hne : mean (ratingsFor store id) ≠ 0 := by linarith
  simp [averageRating, sqlAvg_of_ne_nil _ h1, hne]

/-- C1 witness: two ratings 5 and 4 for id "11007" average to 4.50 with
count 2. -/
theorem averageRating_mean_spec_witness :
    averageRating
        [⟨"11007", 5, ⟨2024, 3, 1⟩⟩, ⟨"11007", 4, ⟨2024, 3, 2⟩⟩] "11007" =
      ⟨.fixed (9 / 2),
       (ratingsFor
          [⟨"11007", 5, ⟨2024, 3, 1⟩⟩, ⟨"11007", 4, ⟨2024, 3, 2⟩⟩]
          "11007").length⟩ := by
  have h := averageRating_mean_spec
      [⟨"11007", 5, ⟨2024, 3, 1⟩⟩, ⟨"11007", 4, ⟨2024, 3, 2⟩⟩] "11007"
      (by decide)
      (by
        intro q hq
        simp [ratingsFor] at hq
        rcases hq with h5 | h4
        · exact ⟨5, by norm_num, by norm_num, by rw [h5]; norm_num⟩
        · exact ⟨4, by norm_num, by norm_num, by rw [h4]; norm_num⟩)
  rw [h]
  norm_num [ratingsFor, mean, toFixed2]

/-- C2: for a cocktail id with zero matching rating rows,
`/average-rating/:cocktailId` succeeds and returns exactly the sentinel
`"Not rated"` with `ratingCount` 0. -/
theorem averageRating_empty_spec (store : List RatingRow) (id : String)
    (h : ratingsFor store id = []) :
    averageRating store id = ⟨.notRated, 0⟩ := by
  simp [averageRating, sqlAvg, h]

/-- C2 witness: a store rating only id "11118" yields the sentinel for the
unrated id "11007". -/
theorem averageRating_empty_spec_witness :
    averageRating [⟨"11118", 5, ⟨2024, 3, 1⟩⟩] "11007" = ⟨.notRated, 0⟩ :=
  averageRating_empty_spec [⟨"11118", 5, ⟨2024, 3, 1⟩⟩] "11007" (by decide)

/-- C3: a successful `/submit-rating` for (id, rating, date) is immediately
reflected by `/average-rating/:id`: the count grows by one, the matching
rating list is the previous one extended by the new rating, and the fresh
`AVG` is the mean over the previous ratings plus the new one. -/
theorem submitRating_then_averageRating (store : List RatingRow)
    (id : String) (r : ℚ) (d : CalDate) :
    (averageRating (submitRating store id r d) id).ratingCount
        = (averageRating store id).ratingCount + 1 ∧
    ratingsFor (submitRating store id r d) id = ratingsFor store id ++ [r] ∧
    sqlAvg (ratingsFor (submitRating store id r d) id)
        = some (mean (ratingsFor store id ++ [r])) := by
  have hrows : ratingsFor (submitRating store id r d) id
      = ratingsFor store id ++ [r] := by
    simp [ratingsFor, submitRating, List.filter_append]
  refine ⟨?_, hrows, ?_⟩
  · simp [averageRating, hrows]
  · rw [hrows]
    exact sqlAvg_of_ne_nil _ (by simp)

/-- C6: the average-rating aggregate depends only on the rows for the
queried cocktail id: two stores agreeing on those rows (but arbitrary on
other ids) yield identical responses. -/
theorem averageRating_no_cross_leakage (s1 s2 : List RatingRow) (id : String)
    (h : s1.filter (fun r => r.cocktail_id = id)
        = s2.filter (fun r => r.cocktail_id = id)) :
    averageRating s1 id = averageRating s2 id := by
  simp [averageRating, ratingsFor, h]

/-- C6 witness: stores differing only on other cocktails' rows give the
same response for id "A". -/
theorem averageRating_no_cross_leakage_witness :
    averageRating [⟨"A", 5, ⟨2024, 3, 1⟩⟩, ⟨"B", 1, ⟨2024, 3, 1⟩⟩] "A"
      = averageRating
          [⟨"C", 3, ⟨2024, 2, 9⟩⟩, ⟨"A", 5, ⟨2024, 3, 1⟩⟩] "A" :=
  averageRating_no_cross_leakage
    [⟨"A", 5, ⟨2024, 3, 1⟩⟩, ⟨"B", 1, ⟨2024, 3, 1⟩⟩]
    [⟨"C", 3, ⟨2024, 2, 9⟩⟩, ⟨"A", 5, ⟨2024, 3, 1⟩⟩] "A" (by decide)

/-- C10: if the matching rows are nonempty but their mean is exactly 0
(possible since rating bounds are not validated server-side), the handler's
truthiness test `row.avgRating ? … : 'Not rated'` misfires: it returns the
sentinel `"Not rated"` while `ratingCount` is the positive row count. -/
theorem averageRating_zero_mean_sentinel (store : List RatingRow)
    (id : String) (h1 : ratingsFor store id ≠ [])
    (h2 : mean (ratingsFor store id) = 0) :
    averageRating store id = ⟨.notRated, (ratingsFor store id).length⟩ ∧
    0 < (ratingsFor store id).length := by
  refine ⟨?_, List.length_pos.mpr h1⟩
  simp [averageRating, sqlAvg_of_ne_nil _ h1, h2]

/-- C10 witness: a single submitted rating of 0 yields the sentinel with a
positive count of 1. -/
theorem averageRating_zero_mean_sentinel_witness :
    averageRating [⟨"11007", 0, ⟨2024, 3, 1⟩⟩] "11007"
        = ⟨.notRated, (ratingsFor [⟨"11007", 0, ⟨2024, 3, 1⟩⟩] "11007").length⟩ ∧
    0 < (ratingsFor [⟨"11007", 0, ⟨2024, 3, 1⟩⟩] "11007").length :=
  averageRating_zero_mean_sentinel [⟨"11007", 0, ⟨2024, 3, 1⟩⟩] "11007"
    (by decide) (by norm_num [ratingsFor, mean])

/-! ## Claims about the top-rated routes -/

/-- The element picked by the `argmaxBy` fold is one of the candidates. -/
theorem foldl_pick_mem (f : String → ℚ) (xs : List String) (x : String) :
    xs.foldl (fun b c => if f b < f c then c else b) x ∈ x :: xs := by
  induction xs generalizing x with
  | nil => simp
  | cons a tl ih =>
    simp only [List.foldl_cons]
    rcases List.mem_cons.mp (ih (if f x < f a then a else x)) with h | h
    · by_cases hc : f x < f a
      · rw [if_pos hc] at h ⊢
        rw [h]
        exact List.mem_cons_of_mem _ (List.mem_cons_self a tl)
      · rw [if_neg hc] at h ⊢
        rw [h]
        exact List.mem_cons_self x (a :: tl)
    · exact List.mem_cons_of_mem _ (List.mem_cons_of_mem _ h)

/-- The element picked by the `argmaxBy` fold maximises `f` over the
candidates. -/
theorem foldl_pick_le (f : String → ℚ) (xs : List String) (x : String) :
    ∀ y ∈ x :: xs,
      f y ≤ f (xs.foldl (fun b c => if f b < f c then c else b) x) := by
  induction xs generalizing x with
  | nil =>
    intro y hy
    rcases List.mem_cons.mp hy with h | h
    · rw [h]; simp
    · simp at h
  | cons a tl ih =>
    intro y hy
    simp only [List.foldl_cons]
    have hacc : f x ≤ f (if f x < f a then a else x) ∧
        f a ≤ f (if f x < f a then a else x) := by
      by_cases hc : f x < f a
      · rw [if_pos hc]; exact ⟨le_of_lt hc, le_refl _⟩
      · rw [if_neg hc]; exact ⟨le_refl _, le_of_not_lt hc⟩
    have hhead := ih (if f x < f a then a else x) (if f x < f a then a else x)
      (List.mem_cons_self _ tl)
    rcases List.mem_cons.mp hy with h | h
    · rw [h]; exact le_trans hacc.1 hhead
    · rcases List.mem_cons.mp h with h2 | h2
      · rw [h2]; exact le_trans hacc.2 hhead
      · exact ih (if f x < f a then a else x) y (List.mem_cons_of_mem _ h2)

/-- An id selected by `argmaxBy` is a member of the candidate list. -/
theorem argmaxBy_mem (f : String → ℚ) (l : List String) (x : String)
    (h : argmaxBy f l = some x) : x ∈ l := by
  cases l with
  | nil => simp [argmaxBy] at h
  | cons a tl =>
    rw [argmaxBy] at h
    exact (Option.some_inj.mp h) ▸ foldl_pick_mem f tl a

/-- An id selected by `argmaxBy` has the maximal value of `f` among the
candidates. -/
theorem argmaxBy_le (f : String → ℚ) (l : List String) (x : String)
    (h : argmaxBy f l = some x) : ∀ y ∈ l, f y ≤ f x := by
  cases l with
  | nil => simp [argmaxBy] at h
  | cons a tl =>
    rw [argmaxBy] at h
    intro y hy
    exact (Option.some_inj.mp h) ▸ foldl_pick_le f tl a y hy

/-- An id appears in `groupIds rows` exactly when some row of `rows` bears
it. -/
theorem mem_groupIds (rows : List RatingRow) (id : String) :
    id ∈ groupIds rows ↔ ∃ row ∈ rows, row.cocktail_id = id := by
  simp [groupIds, List.mem_dedup]

/-- C4: whenever `/top-rated-cocktail` resolves an id for the current
month, that cocktail has at least one rating row dated in that month (it is
never a cocktail whose only ratings fall outside the month), and its
in-month group mean is maximal among all cocktails with in-month rows. -/
theorem topRatedMonth_spec (store : List RatingRow) (m y : Nat) (id : String)
    (h : topRatedMonth store m y = some id) :
    (∃ row ∈ store, row.cocktail_id = id ∧ inMonth row.rated_date m y = true) ∧
    (∀ id2, (∃ row ∈ store, row.cocktail_id = id2 ∧
        inMonth row.rated_date m y = true) →
      groupMean (monthRows store m y) id2
        ≤ groupMean (monthRows store m y) id) := by
  rw [topRatedMonth] at h
  constructor
  · have hmem := argmaxBy_mem _ _ _ h
    obtain ⟨row, hrow, hid⟩ := (mem_groupIds _ _).mp hmem
    have hfilter : row ∈ store ∧ inMonth row.rated_date m y = true := by
      have h2 := hrow
      rw [monthRows, List.mem_filter] at h2
      exact h2
    exact ⟨row, hfilter.1, hid, hfilter.2⟩
  · intro id2 ⟨row, hrow, hid, hm⟩
    refine argmaxBy_le _ _ _ h id2 ?_
    rw [mem_groupIds]
    exact ⟨row, by rw [monthRows, List.mem_filter]; exact ⟨hrow, hm⟩, hid⟩

/-- C4 witness: with A rated 5 and B rated 4 in March 2024 and C rated 5
only in February, the March top-rated cocktail is A, which has an in-month
row and the maximal in-month mean. -/
theorem topRatedMonth_spec_witness :
    topRatedMonth
        [⟨"C", 5, ⟨2024, 2, 9⟩⟩, ⟨"A", 5, ⟨2024, 3, 1⟩⟩,
         ⟨"B", 4, ⟨2024, 3, 2⟩⟩] 3 2024 = some "A" ∧
    ((∃ row ∈ [⟨"C", 5, ⟨2024, 2, 9⟩⟩, ⟨"A", 5, ⟨2024, 3, 1⟩⟩,
          ⟨"B", 4, ⟨2024, 3, 2⟩⟩], RatingRow.cocktail_id row = "A" ∧
        inMonth row.rated_date 3 2024 = true) ∧
     (∀ id2, (∃ row ∈ [⟨"C", 5, ⟨2024, 2, 9⟩⟩, ⟨"A", 5, ⟨2024, 3, 1⟩⟩,
          ⟨"B", 4, ⟨2024, 3, 2⟩⟩], RatingRow.cocktail_id row = id2 ∧
        inMonth row.rated_date 3 2024 = true) →
      groupMean (monthRows [⟨"C", 5, ⟨2024, 2, 9⟩⟩, ⟨"A", 5, ⟨2024, 3, 1⟩⟩,
          ⟨"B", 4, ⟨2024, 3, 2⟩⟩] 3 2024) id2
        ≤ groupMean (monthRows [⟨"C", 5, ⟨2024, 2, 9⟩⟩, ⟨"A", 5, ⟨2024, 3, 1⟩⟩,
          ⟨"B", 4, ⟨2024, 3, 2⟩⟩] 3 2024) "A")) := by
  have hrows : monthRows
      [⟨"C", 5, ⟨2024, 2, 9⟩⟩, ⟨"A", 5, ⟨2024, 3, 1⟩⟩,
       ⟨"B", 4, ⟨2024, 3, 2⟩⟩] 3 2024
      = [⟨"A", 5, ⟨2024, 3, 1⟩⟩, ⟨"B", 4, ⟨2024, 3, 2⟩⟩] := by decide
  have hids : groupIds [⟨"A", 5, ⟨2024, 3, 1⟩⟩, ⟨"B", 4, ⟨2024, 3, 2⟩⟩]
      = ["A", "B"] := by decide
  have hfA : ([⟨"A", 5, ⟨2024, 3, 1⟩⟩, ⟨"B", 4, ⟨2024, 3, 2⟩⟩] :
      List RatingRow).filter (fun r => r.cocktail_id = "A")
      = [⟨"A", 5, ⟨2024, 3, 1⟩⟩] := by decide
  have hfB : ([⟨"A", 5, ⟨2024, 3, 1⟩⟩, ⟨"B", 4, ⟨2024, 3, 2⟩⟩] :
      List RatingRow).filter (fun r => r.cocktail_id = "B")
      = [⟨"B", 4, ⟨2024, 3, 2⟩⟩] := by decide
  have hA : groupMean
      [⟨"A", 5, ⟨2024, 3, 1⟩⟩, ⟨"B", 4, ⟨2024, 3, 2⟩⟩] "A" = 5 := by
    rw [groupMean, hfA]; norm_num [mean]
  have hB : groupMean
      [⟨"A", 5, ⟨2024, 3, 1⟩⟩, ⟨"B", 4, ⟨2024, 3, 2⟩⟩] "B" = 4 := by
    rw [groupMean, hfB]; norm_num [mean]
  have htop : topRatedMonth
      [⟨"C", 5, ⟨2024, 2, 9⟩⟩, ⟨"A", 5, ⟨2024, 3, 1⟩⟩,
       ⟨"B", 4, ⟨2024, 3, 2⟩⟩] 3 2024 = some "A" := by
    rw [topRatedMonth, hrows, hids, argmaxBy]
    simp [hA, hB]
    norm_num
  exact ⟨htop, topRatedMonth_spec _ 3 2024 "A" htop⟩

/-! ## Claim about the week boundary -/

/-- C5: the week-period computation starts the week on Monday: the computed
first day is a Monday lying at most six days before "today" (so today falls
inside the Monday-to-Sunday span), the last day is the following Sunday six
days later, and when today is a Sunday the first day is exactly six days
earlier (the preceding Monday, not the upcoming one). -/
theorem weekPeriod_starts_monday (t : Int) :
    getDay (firstDayOfWeek t) = 1 ∧
    firstDayOfWeek t ≤ t ∧ t ≤ lastDayOfWeek t ∧
    lastDayOfWeek t = firstDayOfWeek t + 6 ∧
    getDay (lastDayOfWeek t) = 0 ∧
    (getDay t = 0 → firstDayOfWeek t = t - 6) := by
  simp only [lastDayOfWeek, firstDayOfWeek, getDay]
  split_ifs with h <;>
    refine ⟨?_, ?_, ?_, ?_, ?_, ?_⟩ <;> first | trivial | omega

/-! ## Claims about recipe hydration and mood lookup -/

/-- C7 counterexample: on a successful lookup the server sends the upstream
drink record exactly as received — for a concrete recipe record carrying
only recipe fields, the response body is that record and contains neither
an `averageRating` nor a `ratingCount` field, so no AggregateRating is
merged into the response shape (the client fetches the aggregate in a
separate `/average-rating` request). -/
theorem hydrate_no_aggregate_merged :
    hydrate (.ok ⟨some [⟨[("idDrink", "11007"), ("strDrink", "Margarita")]⟩]⟩)
        = .ok ⟨[("idDrink", "11007"), ("strDrink", "Margarita")]⟩ ∧
    Drink.hasField ⟨[("idDrink", "11007"), ("strDrink", "Margarita")]⟩
        "averageRating" = false ∧
    Drink.hasField ⟨[("idDrink", "11007"), ("strDrink", "Margarita")]⟩
        "ratingCount" = false := by
  refine ⟨rfl, ?_, ?_⟩ <;> decide

/-- C7 amended: before returning the recipe detail the server performs a
pure pass-through of the externally fetched record — whenever the upstream
body has a nonempty `drinks` array, the response is its first element
unmodified, with no aggregate-rating fields added. -/
theorem hydrate_passthrough (data : Upstream) (d : Drink) (rest : List Drink)
    (h : data.drinks = some (d :: rest)) :
    hydrate (.ok data) = .ok d := by
  simp [hydrate, h]

/-- C7 amended witness: a one-element drinks array is passed through. -/
theorem hydrate_passthrough_witness :
    hydrate (.ok ⟨some [⟨[("strDrink", "Mojito")]⟩]⟩)
        = .ok ⟨[("strDrink", "Mojito")]⟩ :=
  hydrate_passthrough ⟨some [⟨[("strDrink", "Mojito")]⟩]⟩
    ⟨[("strDrink", "Mojito")]⟩ [] rfl

/-- C8: hydration fails 500 (`UpstreamUnavailable`) exactly when the fetch
fails or its body is malformed, fails 404 (`NotFound`) exactly when the
upstream reports zero matching drinks (a `null` or empty `drinks` array),
and otherwise returns the first element of the `drinks` array unmodified. -/
theorem hydrate_error_taxonomy (fr : FetchResult) :
    (hydrate fr = .err 500 "Error fetching from the API" ↔
        fr = .networkError ∨ fr = .parseError) ∧
    (hydrate fr = .err 404 "Cocktail not found" ↔
        ∃ data, fr = .ok data ∧
          (data.drinks = none ∨ data.drinks = some [])) ∧
    (∀ d, hydrate fr = .ok d ↔
        ∃ data rest, fr = .ok data ∧ data.drinks = some (d :: rest)) := by
  rcases fr with _ | _ | data
  · refine ⟨by simp [hydrate], by simp [hydrate], by simp [hydrate]⟩
  · refine ⟨by simp [hydrate], by simp [hydrate], by simp [hydrate]⟩
  · rcases hd : data.drinks with _ | ⟨_ | ⟨d0, rest0⟩⟩
    · refine ⟨by simp [hydrate, hd], by simp [hydrate, hd], by simp [hydrate, hd]⟩
    · refine ⟨by simp [hydrate, hd], by simp [hydrate, hd], by simp [hydrate, hd]⟩
    · refine ⟨by simp [hydrate, hd], by simp [hydrate, hd], ?_⟩
      intro d
      simp only [hydrate, hd]
      constructor
      · intro h
        have hdd : d0 = d := HttpResult.ok.inj h
        exact ⟨data, rest0, rfl, by rw [hd, hdd]⟩
      · rintro ⟨data2, rest2, heq, hdr⟩
        have hdata : data2 = data := (FetchResult.ok.inj heq).symm
        rw [hdata, hd] at hdr
        have hl := Option.some_inj.mp hdr
        rw [(List.cons.inj hl).1]

/-- C9: with exactly one `Moods` row matching the requested mood
(case-sensitively), the lookup always resolves to that row's id, whatever
the random draw; with zero matching rows it resolves to none and the route
responds 404 `'No cocktails found for this mood'` rather than an error. -/
theorem resolveByMood_spec (tbl : List MoodEntry) (mood : String) (k : Nat)
    (e : MoodEntry) (fetchFor : String → FetchResult) :
    (moodMatches tbl mood = [e] → resolveByMood tbl mood k = some e.ID) ∧
    (moodMatches tbl mood = [] →
      resolveByMood tbl mood k = none ∧
      cocktailByMood tbl mood k fetchFor =
        .err 404 "No cocktails found for this mood") := by
  constructor
  · intro h
    simp [resolveByMood, h, Nat.mod_one]
  · intro h
    have hres : resolveByMood tbl mood k = none := by
      simp [resolveByMood, h]
    exact ⟨hres, by simp [cocktailByMood, hres]⟩

/-- C9 witness: a mood with exactly one matching row resolves to its id;
a mood with no matching row yields the 404 response. -/
theorem resolveByMood_spec_witness :
    resolveByMood [⟨"11007", "happy"⟩, ⟨"11118", "sad"⟩] "happy" 7
        = some "11007" ∧
    cocktailByMood [⟨"11007", "happy"⟩] "angry" 0 (fun _ => .networkError)
        = .err 404 "No cocktails found for this mood" :=
  ⟨(resolveByMood_spec [⟨"11007", "happy"⟩, ⟨"11118", "sad"⟩] "happy" 7
      ⟨"11007", "happy"⟩ (fun _ => .networkError)).1 (by decide),
   ((resolveByMood_spec [⟨"11007", "happy"⟩] "angry" 0
      ⟨"11007", "happy"⟩ (fun _ => .networkError)).2 (by decide)).2⟩
